import Mathlib

/-!
Verification of the academia backend (src/server.js): a shallow embedding of
the sqlite-backed record store and the four API handlers, with theorems about
the properties stated in the specification.

The store is modelled as explicit state: each table is a list of rows plus the
next AUTOINCREMENT identifier.  Handler nondeterminism (Math.random) is passed
as an explicit parameter; asynchronous store failures are injected as explicit
Option-valued error parameters.
-/

/-- A row of the departments table (server.js lines 32-35). -/
structure DepartmentRow where
  id : Nat
  name : String
deriving DecidableEq

/-- A row of the faculty table (server.js lines 38-46). -/
structure FacultyRow where
  id : Nat
  first_name : String
  last_name : String
  email : Option String
  department_id : Option Nat
  avatar_url : String
deriving DecidableEq

/-- A row of the students table (server.js lines 49-61); NOT NULL columns are
plain values, nullable columns are Option. -/
structure StudentRow where
  id : Nat
  student_id : String
  first_name : String
  last_name : String
  email : Option String
  department_id : Option Nat
  status : String
  class_year : Option Int
  avatar_initials : String
  avatar_color : String
deriving DecidableEq

/-- A row of the courses table (server.js lines 64-70). -/
structure CourseRow where
  id : Nat
  course_code : String
  name : String
  department_id : Option Nat
  isActive : Bool
deriving DecidableEq

/-- The whole relational store: one list of rows per table together with the
next AUTOINCREMENT primary key for each table.  (The schedule table is never
read or written by any handler or by the seed loader, so it is omitted.) -/
structure DB where
  departments : List DepartmentRow
  faculty : List FacultyRow
  students : List StudentRow
  courses : List CourseRow
  next_department_id : Nat
  next_faculty_id : Nat
  next_student_id : Nat
  next_course_id : Nat
deriving DecidableEq

/-- A freshly created store: empty tables, AUTOINCREMENT counters at 1. -/
def emptyDB : DB :=
  { departments := [], faculty := [], students := [], courses := []
    next_department_id := 1, next_faculty_id := 1
    next_student_id := 1, next_course_id := 1 }

/-- The JSON body of a POST /api/students request (server.js line 107);
`none` models an absent (undefined) field. -/
structure StudentBody where
  student_id : Option String
  first_name : Option String
  last_name : Option String
  email : Option String
  department_id : Option Nat
  class_year : Option Int
deriving DecidableEq

/-- What a handler hands back to the client: the JSON success object, the
500 JSON error object, or an uncaught JavaScript exception (in which case the
handler itself sends no JSON at all). -/
inductive Outcome where
  | jsonOk (message : String) (id : Nat)
  | jsonError (status : Nat) (error : String)
  | exception (msg : String)
deriving DecidableEq

/-- JavaScript string indexing `s[0]`: the first character, or undefined
(`none`) when the string is empty. -/
def jsCharAt0 (s : String) : Option Char :=
  s.data.head?

/-- JavaScript `x || two-quote-empty-string` applied to an optional character:
an absent character contributes the empty string; a one-character string is
always truthy. -/
def jsOrEmptyString : Option Char → String
  | none => ""
  | some c => String.singleton c

/-- The message of the TypeError raised by JavaScript when indexing an
undefined value, as happens in server.js line 110 when a name field is absent
from the request body. -/
def typeErrorMsg : String :=
  "TypeError: cannot read properties of undefined"

/-- The sqlite error surfaced when the NOT NULL constraint on
students.student_id is violated (server.js line 51). -/
def notNullMsg : String :=
  "SQLITE_CONSTRAINT: NOT NULL constraint failed: students.student_id"

/-- The sqlite error surfaced when the UNIQUE constraint on
students.student_id is violated (server.js line 51). -/
def uniqueMsg : String :=
  "SQLITE_CONSTRAINT: UNIQUE constraint failed: students.student_id"

/-- The avatar palette of server.js line 111. -/
def colors : List String :=
  ["blue", "amber", "rose", "cyan"]

/-- server.js line 112: `colors[Math.floor(Math.random() * colors.length)]`.
Math.random is in [0,1), so the floored index is one of 0,1,2,3; the index is
passed in explicitly as the resolution of the randomness. -/
def randomColor (k : Fin 4) : String :=
  colors.get ⟨k.val, by cases k with | mk v h => simpa [colors] using h⟩

/-- The row appended to the students table by a successful INSERT of
server.js lines 114-119: the next AUTOINCREMENT id, the values bound at
line 117, and the default status Pending (line 56). -/
def newStudentRow (db : DB) (sid fn ln : String) (em : Option String)
    (dep : Option Nat) (cy : Option Int) (initials color : String) : StudentRow :=
  { id := db.next_student_id, student_id := sid, first_name := fn
    last_name := ln, email := em, department_id := dep
    status := "Pending", class_year := cy
    avatar_initials := initials, avatar_color := color }

/-- The INSERT of server.js lines 114-119, with the two sqlite constraints on
students.student_id checked the way sqlite checks them: a null value violates
NOT NULL, an existing equal value violates UNIQUE.  On success the row is
appended and the new id is returned as `this.lastID`. -/
def insertStudent (db : DB) (osid : Option String) (fn ln : String)
    (em : Option String) (dep : Option Nat) (cy : Option Int)
    (initials color : String) : Except String (Nat × DB) :=
  match osid with
  | none => Except.error notNullMsg
  | some sid =>
    if db.students.any (fun r => r.student_id == sid) then
      Except.error uniqueMsg
    else
      Except.ok (db.next_student_id,
        { db with
          students := db.students ++ [newStudentRow db sid fn ln em dep cy initials color]
          next_student_id := db.next_student_id + 1 })

/-- The POST /api/students handler (server.js lines 106-123).  Indexing an
absent name field throws before the insert is attempted; otherwise the avatar
fields are derived and the insert runs, answering 500 {error} on a store
failure and {message, id} on success. -/
def postStudents (db : DB) (b : StudentBody) (k : Fin 4) : Outcome × DB :=
  match b.first_name, b.last_name with
  | none, _ => (Outcome.exception typeErrorMsg, db)
  | some _, none => (Outcome.exception typeErrorMsg, db)
  | some fn, some ln =>
    let initials := jsOrEmptyString (jsCharAt0 fn) ++ jsOrEmptyString (jsCharAt0 ln)
    match insertStudent db b.student_id fn ln b.email b.department_id
        b.class_year initials (randomColor k) with
    | Except.error msg => (Outcome.jsonError 500 msg, db)
    | Except.ok (id, db2) => (Outcome.jsonOk "Student saved successfully!" id, db2)

/-- The first character of a string as a one-character string, or the empty
string when the string is empty: the specified shape of each half of
avatar_initials. -/
def firstCharStr (s : String) : String :=
  match s.data with
  | [] => ""
  | c :: _ => String.singleton c

/-- The four department rows inserted by the seed (server.js line 87), with
consecutive AUTOINCREMENT ids starting at the table's next id. -/
def seedDepartmentRows (next : Nat) : List DepartmentRow :=
  [{ id := next, name := "Computer Science" },
   { id := next + 1, name := "Architecture" },
   { id := next + 2, name := "Engineering" },
   { id := next + 3, name := "Business" }]

/-- The two faculty rows inserted by the seed (server.js lines 89-91). -/
def seedFacultyRows (next : Nat) : List FacultyRow :=
  [{ id := next, first_name := "Alan", last_name := "Turing", email := none
     department_id := some 1
     avatar_url := "https://ui-avatars.com/api/?name=Prof+A&background=random" },
   { id := next + 1, first_name := "Grace", last_name := "Hopper", email := none
     department_id := some 1
     avatar_url := "https://ui-avatars.com/api/?name=Prof+G&background=random" }]

/-- The one student row inserted by the seed (server.js lines 93-94). -/
def seedStudentRow (next : Nat) : StudentRow :=
  { id := next, student_id := "#ST-2024-001", first_name := "John"
    last_name := "Doe", email := none, department_id := some 1
    status := "Admitted", class_year := some 2026
    avatar_initials := "JD", avatar_color := "blue" }

/-- The one course row inserted by the seed (server.js line 96); isActive
takes its default value true (line 69). -/
def seedCourseRow (next : Nat) : CourseRow :=
  { id := next, course_code := "CS-101", name := "Data Structures"
    department_id := some 1, isActive := true }

/-- The seed loader (server.js lines 84-99): count the departments table and,
only when the count is 0, insert four departments, two faculty, one student
and one course.  The seed INSERTs carry no error callbacks, so they are
modelled by their success behaviour. -/
def seedDatabase (db : DB) : DB :=
  if db.departments.length = 0 then
    { db with
      departments := db.departments ++ seedDepartmentRows db.next_department_id
      next_department_id := db.next_department_id + 4
      faculty := db.faculty ++ seedFacultyRows db.next_faculty_id
      next_faculty_id := db.next_faculty_id + 2
      students := db.students ++ [seedStudentRow db.next_student_id]
      next_student_id := db.next_student_id + 1
      courses := db.courses ++ [seedCourseRow db.next_course_id]
      next_course_id := db.next_course_id + 1 }
  else db

/-- SELECT COUNT(*) FROM students (server.js line 140). -/
def countStudents (db : DB) : Nat :=
  db.students.length

/-- SELECT COUNT(*) FROM courses WHERE isActive = 1 (server.js line 141). -/
def countActiveCourses (db : DB) : Nat :=
  (db.courses.filter (fun c => c.isActive)).length

/-- SELECT COUNT(*) FROM faculty (server.js line 142). -/
def countFaculty (db : DB) : Nat :=
  db.faculty.length

/-- The JSON object answered by GET /api/stats (server.js line 145). -/
structure StatsResponse where
  total_students : Nat
  active_courses : Nat
  faculty_staff : Nat
  fee_collection : String
deriving DecidableEq

/-- One of the three count promises of server.js lines 140-142: it either
rejects with an injected store failure or resolves to the count. -/
def runCountQuery (result : Nat) : Option String → Except String Nat
  | some msg => Except.error msg
  | none => Except.ok result

/-- The GET /api/stats handler (server.js lines 139-147): three count queries
joined by Promise.all; the response object is assembled only from three
resolved counts, and any rejection makes the whole call answer 500 {error}.
The parameters e1, e2, e3 inject a failure into the respective query. -/
def getStats (db : DB) (e1 e2 e3 : Option String) : Except String StatsResponse :=
  match runCountQuery (countStudents db) e1,
      runCountQuery (countActiveCourses db) e2,
      runCountQuery (countFaculty db) e3 with
  | Except.ok a, Except.ok b, Except.ok c =>
    Except.ok { total_students := a, active_courses := b, faculty_staff := c
                fee_collection := "$2.4M" }
  | Except.error m, _, _ => Except.error m
  | _, Except.error m, _ => Except.error m
  | _, _, Except.error m => Except.error m

/-- One row of the recent-enrollments result: all student columns plus the
joined department_name (server.js line 151). -/
structure EnrollmentRow where
  student : StudentRow
  department_name : Option String
deriving DecidableEq

/-- LEFT JOIN departments d ON s.department_id = d.id, projected to d.name:
null department_id matches no department, and an unmatched student gets a
null department_name instead of being dropped. -/
def joinDepartmentName (db : DB) (s : StudentRow) : Option String :=
  match s.department_id with
  | none => none
  | some did => (db.departments.find? (fun d => d.id == did)).map (fun d => d.name)

/-- The joined relation of server.js line 151 before ordering and limiting:
one output row per students row. -/
def enrollmentRows (db : DB) : List EnrollmentRow :=
  db.students.map (fun s => { student := s, department_name := joinDepartmentName db s })

/-- ORDER BY s.id DESC: a row sorts before another when its student id is at
least as large. -/
def recentOrder (a b : EnrollmentRow) : Prop :=
  b.student.id ≤ a.student.id

instance : DecidableRel recentOrder :=
  fun a b => inferInstanceAs (Decidable (b.student.id ≤ a.student.id))

instance : IsTotal EnrollmentRow recentOrder :=
  ⟨fun a b => Nat.le_total b.student.id a.student.id⟩

instance : IsTrans EnrollmentRow recentOrder :=
  ⟨fun _ _ _ hab hbc => Nat.le_trans hbc hab⟩

/-- The GET /api/enrollments/recent handler (server.js lines 150-156):
join, order by student id descending, LIMIT 5. -/
def getRecentEnrollments (db : DB) : List EnrollmentRow :=
  (List.insertionSort recentOrder (enrollmentRows db)).take 5

/-- The observable results of running the top level of server.js:
whether app.listen ran (line 168), which message the open callback logged
(lines 21 and 23), and whether schema creation and seeding ran (line 24). -/
structure StartupResult where
  listening : Bool
  connectedLogged : Bool
  errorLogged : Option String
  schemaInitialized : Bool
deriving DecidableEq

/-- The top level of server.js, with the outcome of opening the database
injected as `openError`.  On an open failure the callback at lines 20-21 only
logs the error and skips initialization; nothing stops the process, and
app.listen at line 168 runs unconditionally, so the server listens in both
branches.  On success the schema is created (a no-op on this model of an
already well-formed store) and the seed loader runs. -/
def serverStartup (openError : Option String) (db : DB) : StartupResult × DB :=
  match openError with
  | some msg =>
    ({ listening := true, connectedLogged := false, errorLogged := some msg
       schemaInitialized := false }, db)
  | none =>
    ({ listening := true, connectedLogged := true, errorLogged := none
       schemaInitialized := true }, seedDatabase db)

/-- A well-formed POST /api/students body with all fields present. -/
def bodyJohn : StudentBody :=
  { student_id := some "S-1", first_name := some "John", last_name := some "Doe"
    email := none, department_id := none, class_year := none }

/-- A body whose first_name field is absent (undefined in the JSON body). -/
def bodyNoFirst : StudentBody :=
  { student_id := some "S-2", first_name := none, last_name := some "Doe"
    email := none, department_id := none, class_year := none }

/-- A student row with no department, used as a concrete store inhabitant. -/
def stuNull : StudentRow :=
  { id := 1, student_id := "A1", first_name := "Ann", last_name := "Ash"
    email := none, department_id := none, status := "Pending", class_year := none
    avatar_initials := "AA", avatar_color := "blue" }

/-- A student row with department 1 and the given id and student_id. -/
def mkStu (n : Nat) (sid : String) : StudentRow :=
  { id := n, student_id := sid, first_name := "Bob", last_name := "Bee"
    email := none, department_id := some 1, status := "Pending", class_year := none
    avatar_initials := "BB", avatar_color := "cyan" }

/-- A concrete store with six students; the oldest (id 1) has no department. -/
def db6 : DB :=
  { departments := [{ id := 1, name := "Computer Science" }]
    faculty := [], courses := []
    students := [stuNull, mkStu 2 "A2", mkStu 3 "A3", mkStu 4 "A4",
                 mkStu 5 "A5", mkStu 6 "A6"]
    next_department_id := 2, next_faculty_id := 1
    next_student_id := 7, next_course_id := 1 }

/-- A body that reuses the student_id of `stuNull`. -/
def bodyDup : StudentBody :=
  { student_id := some "A1", first_name := some "Jane", last_name := some "Roe"
    email := none, department_id := none, class_year := none }

/-- A concrete store holding exactly one student, who has no department. -/
def dbNull1 : DB :=
  { emptyDB with students := [stuNull], next_student_id := 2 }

/-- The JavaScript idiom of server.js line 110 computes exactly the first
character of the string, omitted when the string is empty. -/
theorem jsOrEmptyString_jsCharAt0 (s : String) :
    jsOrEmptyString (jsCharAt0 s) = firstCharStr s := by
  cases h : s.data <;> simp [jsOrEmptyString, jsCharAt0, firstCharStr, h]

/-- Shape of a successful POST /api/students run: present name fields, a
student_id that passes both constraints, and the appended row. -/
theorem postStudents_ok_eq (db : DB) (b : StudentBody) (k : Fin 4)
    (fn ln sid : String)
    (hf : b.first_name = some fn) (hl : b.last_name = some ln)
    (hs : b.student_id = some sid)
    (hdup : db.students.any (fun r => r.student_id == sid) = false) :
    postStudents db b k =
      (Outcome.jsonOk "Student saved successfully!" db.next_student_id,
       { db with
         students := db.students ++
           [newStudentRow db sid fn ln b.email b.department_id b.class_year
             (jsOrEmptyString (jsCharAt0 fn) ++ jsOrEmptyString (jsCharAt0 ln))
             (randomColor k)]
         next_student_id := db.next_student_id + 1 }) := by
  simp [postStudents, hf, hl, insertStudent, hs, hdup]

/-- C1: for every student creation via POST /api/students in which first_name
and last_name are strings, the handler never throws, and whenever a row is
stored its avatar_initials is the first character of first_name concatenated
with the first character of last_name, with an empty name contributing
nothing. -/
theorem postStudents_avatar_initials (db : DB) (b : StudentBody) (k : Fin 4)
    (fn ln : String) (hf : b.first_name = some fn) (hl : b.last_name = some ln) :
    (∀ e, (postStudents db b k).1 ≠ Outcome.exception e) ∧
    (∀ id, (postStudents db b k).1 = Outcome.jsonOk "Student saved successfully!" id →
      ∃ row, row ∈ (postStudents db b k).2.students ∧ row.id = id ∧
        row.avatar_initials = firstCharStr fn ++ firstCharStr ln) := by
  cases hs : b.student_id with
  | none =>
    constructor <;> intro _ <;> simp [postStudents, hf, hl, insertStudent, hs]
  | some sid =>
    by_cases hdup : db.students.any (fun r => r.student_id == sid) = true
    · constructor <;> intro _ <;> simp [postStudents, hf, hl, insertStudent, hs, hdup]
    · rw [Bool.not_eq_true] at hdup
      rw [postStudents_ok_eq db b k fn ln sid hf hl hs hdup]
      refine ⟨fun e => by simp, fun id hid => ?_⟩
      simp only [Outcome.jsonOk.injEq, true_and] at hid
      refine ⟨newStudentRow db sid fn ln b.email b.department_id b.class_year
        (jsOrEmptyString (jsCharAt0 fn) ++ jsOrEmptyString (jsCharAt0 ln))
        (randomColor k), ?_, ?_, ?_⟩
      · simp
      · simpa [newStudentRow] using hid
      · simp [newStudentRow, jsOrEmptyString_jsCharAt0]

/-- C1 witness: creating John Doe in a fresh store stores initials JD. -/
theorem postStudents_avatar_initials_witness :
    (∀ e, (postStudents emptyDB bodyJohn 0).1 ≠ Outcome.exception e) ∧
    (∀ id, (postStudents emptyDB bodyJohn 0).1 =
        Outcome.jsonOk "Student saved successfully!" id →
      ∃ row, row ∈ (postStudents emptyDB bodyJohn 0).2.students ∧ row.id = id ∧
        row.avatar_initials = firstCharStr "John" ++ firstCharStr "Doe") :=
  postStudents_avatar_initials emptyDB bodyJohn 0 "John" "Doe" rfl rfl

/-- C10: a POST /api/students body lacking first_name or lacking last_name
makes the handler throw a TypeError while deriving avatar_initials, before
the insert: the store is unchanged and neither the success JSON nor the
{error} JSON is produced. -/
theorem postStudents_missing_name_exception (db : DB) (b : StudentBody) (k : Fin 4)
    (h : b.first_name = none ∨ b.last_name = none) :
    (postStudents db b k).1 = Outcome.exception typeErrorMsg ∧
    (postStudents db b k).2 = db ∧
    (∀ m i, (postStudents db b k).1 ≠ Outcome.jsonOk m i) ∧
    (∀ st e, (postStudents db b k).1 ≠ Outcome.jsonError st e) := by
  have heq : postStudents db b k = (Outcome.exception typeErrorMsg, db) := by
    rcases h with h | h
    · simp [postStudents, h]
    · cases hf : b.first_name <;> simp [postStudents, hf, h]
  rw [heq]
  exact ⟨rfl, rfl, fun m i => by simp, fun st e => by simp⟩

/-- C10 witness: a body with no first_name field throws and inserts nothing. -/
theorem postStudents_missing_name_exception_witness :
    (postStudents emptyDB bodyNoFirst 0).1 = Outcome.exception typeErrorMsg ∧
    (postStudents emptyDB bodyNoFirst 0).2 = emptyDB ∧
    (∀ m i, (postStudents emptyDB bodyNoFirst 0).1 ≠ Outcome.jsonOk m i) ∧
    (∀ st e, (postStudents emptyDB bodyNoFirst 0).1 ≠ Outcome.jsonError st e) :=
  postStudents_missing_name_exception emptyDB bodyNoFirst 0 (Or.inl rfl)

/-- C8: every row present after a POST /api/students call either was already
stored or carries one of exactly the four palette colors blue, amber, rose,
cyan, whatever the random selection did. -/
theorem avatar_color_palette (db : DB) (b : StudentBody) (k : Fin 4)
    (row : StudentRow) (hrow : row ∈ (postStudents db b k).2.students) :
    row ∈ db.students ∨
      row.avatar_color = "blue" ∨ row.avatar_color = "amber" ∨
      row.avatar_color = "rose" ∨ row.avatar_color = "cyan" := by
  have hpal : ∀ j : Fin 4, randomColor j = "blue" ∨ randomColor j = "amber" ∨
      randomColor j = "rose" ∨ randomColor j = "cyan" := by decide
  cases hf : b.first_name with
  | none => exact Or.inl (by simpa [postStudents, hf] using hrow)
  | some fn =>
    cases hl : b.last_name with
    | none => exact Or.inl (by simpa [postStudents, hf, hl] using hrow)
    | some ln =>
      cases hs : b.student_id with
      | none => exact Or.inl (by simpa [postStudents, hf, hl, hs, insertStudent] using hrow)
      | some sid =>
        by_cases hdup : db.students.any (fun r => r.student_id == sid) = true
        · exact Or.inl (by simpa [postStudents, hf, hl, hs, insertStudent, hdup] using hrow)
        · rw [Bool.not_eq_true] at hdup
          rw [postStudents_ok_eq db b k fn ln sid hf hl hs hdup] at hrow
          rcases List.mem_append.mp hrow with hmem | hmem
          · exact Or.inl hmem
          · right
            rw [List.mem_singleton.mp hmem]
            simpa [newStudentRow] using hpal k

/-- C8 witness: the concrete creation of John Doe stores the color blue. -/
theorem avatar_color_palette_witness :
    (newStudentRow emptyDB "S-1" "John" "Doe" none none none "JD" "blue")
        ∈ emptyDB.students ∨
    (newStudentRow emptyDB "S-1" "John" "Doe" none none none "JD" "blue").avatar_color = "blue" ∨
    (newStudentRow emptyDB "S-1" "John" "Doe" none none none "JD" "blue").avatar_color = "amber" ∨
    (newStudentRow emptyDB "S-1" "John" "Doe" none none none "JD" "blue").avatar_color = "rose" ∨
    (newStudentRow emptyDB "S-1" "John" "Doe" none none none "JD" "blue").avatar_color = "cyan" :=
  avatar_color_palette emptyDB bodyJohn 0
    (newStudentRow emptyDB "S-1" "John" "Doe" none none none "JD" "blue") (by decide)

/-- C2: against a store already containing a student with a given student_id,
a creation reusing that student_id answers the 500 {error} surfaced from the
UNIQUE constraint, leaves the store unchanged, and the first student row is
still queryable. -/
theorem postStudents_duplicate_student_id (db : DB) (b : StudentBody) (k : Fin 4)
    (sid fn ln : String) (row : StudentRow)
    (hrow : row ∈ db.students) (hsid : row.student_id = sid)
    (hb : b.student_id = some sid)
    (hf : b.first_name = some fn) (hl : b.last_name = some ln) :
    (postStudents db b k).1 = Outcome.jsonError 500 uniqueMsg ∧
    (postStudents db b k).2 = db ∧
    row ∈ (postStudents db b k).2.students := by
  have hany : db.students.any (fun r => r.student_id == sid) = true :=
    List.any_eq_true.mpr ⟨row, hrow, by simp [hsid]⟩
  have heq : postStudents db b k = (Outcome.jsonError 500 uniqueMsg, db) := by
    simp [postStudents, hf, hl, insertStudent, hb, hany]
  rw [heq]
  exact ⟨rfl, rfl, hrow⟩

/-- C2 witness: reusing student_id A1 against the six-student store fails with
the uniqueness error and leaves the store as it was. -/
theorem postStudents_duplicate_student_id_witness :
    (postStudents db6 bodyDup 0).1 = Outcome.jsonError 500 uniqueMsg ∧
    (postStudents db6 bodyDup 0).2 = db6 ∧
    stuNull ∈ (postStudents db6 bodyDup 0).2.students :=
  postStudents_duplicate_student_id db6 bodyDup 0 "A1" "Jane" "Roe" stuNull
    (by decide) rfl rfl rfl rfl

/-- C3: the seed loader inserts the fixed starter rows (four departments, two
faculty, one student, one course) when and only when the departments table is
empty; against a non-empty departments table the store is untouched, so all
four counts are unchanged across a restart. -/
theorem seedDatabase_iff_empty (db : DB) :
    (db.departments = [] →
      (seedDatabase db).departments.length = db.departments.length + 4 ∧
      (seedDatabase db).faculty.length = db.faculty.length + 2 ∧
      (seedDatabase db).students.length = db.students.length + 1 ∧
      (seedDatabase db).courses.length = db.courses.length + 1) ∧
    (db.departments ≠ [] → seedDatabase db = db) := by
  constructor
  · intro h
    simp [seedDatabase, h, seedDepartmentRows, seedFacultyRows]
  · intro h
    simp [seedDatabase, List.length_eq_zero, h]

/-- C3 witness: a fresh store gains 4, 2, 1, 1 rows; the already-seeded
six-student store is untouched by a restart. -/
theorem seedDatabase_iff_empty_witness :
    ((seedDatabase emptyDB).departments.length = emptyDB.departments.length + 4 ∧
     (seedDatabase emptyDB).faculty.length = emptyDB.faculty.length + 2 ∧
     (seedDatabase emptyDB).students.length = emptyDB.students.length + 1 ∧
     (seedDatabase emptyDB).courses.length = emptyDB.courses.length + 1) ∧
    seedDatabase db6 = db6 :=
  ⟨(seedDatabase_iff_empty emptyDB).1 rfl,
   (seedDatabase_iff_empty db6).2 (by decide)⟩

/-- C4: a successful GET /api/stats answers exactly the row count of the
students table, the count of courses whose isActive is true (inactive courses
are the remainder of the table), the row count of the faculty table, and the
fixed literal fee_collection string. -/
theorem getStats_counts (db : DB) :
    getStats db none none none =
      Except.ok { total_students := db.students.length
                  active_courses := (db.courses.filter (fun c => c.isActive)).length
                  faculty_staff := db.faculty.length
                  fee_collection := "$2.4M" } ∧
    (db.courses.filter (fun c => c.isActive)).length +
        (db.courses.filter (fun c => !c.isActive)).length = db.courses.length :=
  ⟨rfl, (List.length_eq_length_filter_add _).symm⟩

/-- C5: GET /api/stats succeeds exactly when all three count queries succeed,
assembling the full object from the three counts; if any one query fails the
whole call answers an error and no partial object is produced. -/
theorem getStats_all_or_nothing (db : DB) (e1 e2 e3 : Option String) :
    (e1 = none ∧ e2 = none ∧ e3 = none →
      getStats db e1 e2 e3 =
        Except.ok { total_students := countStudents db
                    active_courses := countActiveCourses db
                    faculty_staff := countFaculty db
                    fee_collection := "$2.4M" }) ∧
    ((e1 ≠ none ∨ e2 ≠ none ∨ e3 ≠ none) →
      ∃ m, getStats db e1 e2 e3 = Except.error m) := by
  constructor
  · rintro ⟨h1, h2, h3⟩
    subst h1; subst h2; subst h3
    rfl
  · intro h
    cases e1 with
    | some m => cases e2 <;> cases e3 <;> exact ⟨m, rfl⟩
    | none =>
      cases e2 with
      | some m => cases e3 <;> exact ⟨m, rfl⟩
      | none =>
        cases e3 with
        | some m => exact ⟨m, rfl⟩
        | none => rcases h with h | h | h <;> exact absurd rfl h

/-- C5 witness: with no failure the six-student store yields the full stats
object; with the first count query failing the call yields an error. -/
theorem getStats_all_or_nothing_witness :
    getStats db6 none none none =
      Except.ok { total_students := countStudents db6
                  active_courses := countActiveCourses db6
                  faculty_staff := countFaculty db6
                  fee_collection := "$2.4M" } ∧
    ∃ m, getStats db6 (some "disk error") none none = Except.error m :=
  ⟨(getStats_all_or_nothing db6 none none none).1 ⟨rfl, rfl, rfl⟩,
   (getStats_all_or_nothing db6 (some "disk error") none none).2
     (Or.inl (Option.some_ne_none _))⟩

/-- C6: GET /api/enrollments/recent returns at most 5 rows, ordered by
student identifier descending (most recently created student first). -/
theorem recentEnrollments_limit_and_sorted (db : DB) :
    (getRecentEnrollments db).length ≤ 5 ∧
    List.Sorted recentOrder (getRecentEnrollments db) :=
  ⟨List.length_take_le 5 _,
   List.Pairwise.sublist (List.take_sublist 5 _)
     (List.sorted_insertionSort recentOrder (enrollmentRows db))⟩

/-- In a list sorted by descending student id, a member lies within the first
n entries whenever at most n entries carry an id at least as large as its
own: entries with at least that id form a prefix of the sorted list. -/
theorem sorted_filter_le_mem_take (x : EnrollmentRow) :
    ∀ (l : List EnrollmentRow) (n : Nat), List.Sorted recentOrder l → x ∈ l →
      (l.filter (fun r => x.student.id ≤ r.student.id)).length ≤ n →
      x ∈ l.take n := by
  intro l
  induction l with
  | nil => intro n _ hx _; exact absurd hx (List.not_mem_nil x)
  | cons a l ih =>
    intro n hsort hx hcount
    have hPa : decide (x.student.id ≤ a.student.id) = true := by
      rcases List.mem_cons.mp hx with h | h
      · rw [h]; simp
      · have h2 := (List.sorted_cons.mp hsort).1 x h
        simp only [decide_eq_true_eq]
        exact h2
    simp only [List.filter_cons, hPa, if_true, List.length_cons] at hcount
    cases n with
    | zero => omega
    | succ m =>
      rw [List.take_succ_cons]
      rcases List.mem_cons.mp hx with h | h
      · rw [h]; exact List.mem_cons_self a _
      · exact List.mem_cons_of_mem a
          (ih m (List.sorted_cons.mp hsort).2 h (by omega))

/-- C7 amended: a student with null department_id is never excluded by the
join: his row, carrying a null department_name, is in the ordered joined
relation the view draws from; any view row for him has a null
department_name; and whenever he is among the 5 most recent students — at
most 5 students carry an id at least his, in particular whenever the
students table has at most 5 rows — the view itself contains his row.
(With more than 5 more-recent students an old row is cut by the LIMIT 5
window, not by the join.) -/
theorem recentEnrollments_left_join_null (db : DB) (s : StudentRow)
    (hs : s ∈ db.students) (hd : s.department_id = none) :
    EnrollmentRow.mk s none ∈ List.insertionSort recentOrder (enrollmentRows db) ∧
    (∀ r ∈ getRecentEnrollments db, r.student = s → r.department_name = none) ∧
    ((db.students.filter (fun t => s.id ≤ t.id)).length ≤ 5 →
      EnrollmentRow.mk s none ∈ getRecentEnrollments db) ∧
    (db.students.length ≤ 5 → EnrollmentRow.mk s none ∈ getRecentEnrollments db) := by
  have hjoin : joinDepartmentName db s = none := by simp [joinDepartmentName, hd]
  have hmem : EnrollmentRow.mk s none ∈ enrollmentRows db := by
    have h1 : EnrollmentRow.mk s (joinDepartmentName db s) ∈ enrollmentRows db :=
      List.mem_map_of_mem (fun t => EnrollmentRow.mk t (joinDepartmentName db t)) hs
    rw [hjoin] at h1
    exact h1
  have hrank : ∀ bound : Nat,
      (db.students.filter (fun t => s.id ≤ t.id)).length ≤ bound →
      EnrollmentRow.mk s none ∈ (List.insertionSort recentOrder (enrollmentRows db)).take bound := by
    intro bound h5
    have hxmem : EnrollmentRow.mk s none ∈ List.insertionSort recentOrder (enrollmentRows db) :=
      (List.mem_insertionSort recentOrder).mpr hmem
    have hcnt : ((List.insertionSort recentOrder (enrollmentRows db)).filter
        (fun r => s.id ≤ r.student.id)).length ≤ bound := by
      have hperm := (List.Perm.filter (fun r => decide (s.id ≤ r.student.id))
        (List.perm_insertionSort recentOrder (enrollmentRows db))).length_eq
      rw [hperm, ← List.countP_eq_length_filter]
      unfold enrollmentRows
      rw [List.countP_map, List.countP_eq_length_filter]
      exact h5
    exact sorted_filter_le_mem_take (EnrollmentRow.mk s none) _ bound
      (List.sorted_insertionSort recentOrder (enrollmentRows db)) hxmem hcnt
  refine ⟨(List.mem_insertionSort recentOrder).mpr hmem, ?_, hrank 5, ?_⟩
  · intro r hr hrs
    have hr1 : r ∈ List.insertionSort recentOrder (enrollmentRows db) :=
      (List.take_sublist 5 _).subset hr
    have hr2 : r ∈ enrollmentRows db := (List.mem_insertionSort recentOrder).mp hr1
    obtain ⟨t, ht, hteq⟩ := List.mem_map.mp (by simpa [enrollmentRows] using hr2)
    rw [← hteq] at hrs ⊢
    have : t = s := hrs
    rw [this]
    exact hjoin
  · intro hlen
    exact hrank 5 (Nat.le_trans (List.length_filter_le _ _) hlen)

/-- C7 amended witness: the single no-department student of dbNull1 is in the
joined relation with a null department_name, every view row for him carries a
null department_name, and — being among the 5 most recent — he is in the
view itself. -/
theorem recentEnrollments_left_join_null_witness :
    EnrollmentRow.mk stuNull none ∈
      List.insertionSort recentOrder (enrollmentRows dbNull1) ∧
    (∀ r ∈ getRecentEnrollments dbNull1, r.student = stuNull →
      r.department_name = none) ∧
    ((dbNull1.students.filter (fun t => stuNull.id ≤ t.id)).length ≤ 5 →
      EnrollmentRow.mk stuNull none ∈ getRecentEnrollments dbNull1) ∧
    (dbNull1.students.length ≤ 5 →
      EnrollmentRow.mk stuNull none ∈ getRecentEnrollments dbNull1) :=
  recentEnrollments_left_join_null dbNull1 stuNull (by decide) rfl

/-- C7 counterexample: in the six-student store the oldest student has a null
department_id, yet the recent-enrollments view does not include his row at
all, because the LIMIT 5 window cuts it; so the claim that the view includes
the row of every null-department student is false as stated. -/
theorem recentEnrollments_null_dept_excluded :
    stuNull ∈ db6.students ∧ stuNull.department_id = none ∧
    ∀ r ∈ getRecentEnrollments db6, r.student ≠ stuNull := by decide

/-- C9 counterexample: when opening the database fails at startup, the
process does not stop: app.listen has run and the server is listening, even
though the schema was never initialized and the store never touched.  So
"a schema-creation failure at startup is fatal and stops the process" is
false of this code: the open callback only logs the error and the top-level
app.listen call is unconditional. -/
theorem serverStartup_open_failure_not_fatal :
    (serverStartup (some "SQLITE_CANTOPEN: unable to open database file")
        emptyDB).1.listening = true ∧
    (serverStartup (some "SQLITE_CANTOPEN: unable to open database file")
        emptyDB).1.schemaInitialized = false ∧
    (serverStartup (some "SQLITE_CANTOPEN: unable to open database file")
        emptyDB).2 = emptyDB :=
  ⟨rfl, rfl, rfl⟩

/-- C9 amended: on an open failure at startup the error is logged, schema
creation and seeding are skipped and the store is untouched, but the server
listens exactly as it does on a successful startup (on which the seed loader
runs); the process never stops. -/
theorem serverStartup_open_failure_behavior (msg : String) (db : DB) :
    (serverStartup (some msg) db).1.listening =
      (serverStartup none db).1.listening ∧
    (serverStartup (some msg) db).1.errorLogged = some msg ∧
    (serverStartup (some msg) db).1.connectedLogged = false ∧
    (serverStartup (some msg) db).1.schemaInitialized = false ∧
    (serverStartup (some msg) db).2 = db ∧
    (serverStartup none db).2 = seedDatabase db :=
  ⟨rfl, rfl, rfl, rfl, rfl, rfl⟩
